import Mathlib

/-!
Verification of the CAYF-Monitoring advisory and aggregation engine.

The definitions below are a shallow embedding of the two source files
`src/database.py` and `src/app.py`.  SQLite tables become lists of typed
rows (a nullable column becomes an `Option` field), SQL queries become
list functions, and the Streamlit rendering code relevant to the claims
becomes explicit Lean functions.  Timestamps are modelled as the ISO
strings the code stores, compared lexicographically exactly as SQLite
compares TEXT columns.  Numeric sensor values are modelled as rationals.
-/

namespace CAYF

/-- A row of the `assets` table (src/database.py, `init_db`). -/
structure AssetRow where
  asset_id : Int
  asset_type : String
  name : String
  crop_type : Option String
  area_m2 : Option ℚ
  location : Option String
  notes : Option String
  created_at : String
deriving DecidableEq, Repr

/-- A row of the `sensor_readings` table (src/database.py, `init_db`).
`asset_id` is declared NOT NULL, so a stored row always carries one. -/
structure SensorReading where
  reading_id : Int
  asset_id : Int
  date : String
  light : Option ℚ
  air_temp : Option ℚ
  air_humidity : Option ℚ
  soil_temp : Option ℚ
  soil_moisture : Option ℚ
  soil_ph : Option ℚ
  fertility : Option ℚ
  battery : Option ℚ
deriving DecidableEq, Repr

/-- The mutable database state used by the claims: the `assets` and
`sensor_readings` tables together with their AUTOINCREMENT counters. -/
structure DBState where
  assets : List AssetRow
  sensor_readings : List SensorReading
  next_asset_id : Int
  next_reading_id : Int
deriving DecidableEq, Repr

/-- Errors the Python runtime raises in the embedded code paths. -/
inductive PyError where
  | nameError (nm : String)
  | integrityError (msg : String)
deriving DecidableEq, Repr

/-- Embedding of `create_asset` (src/database.py:275-281): INSERT INTO assets.  The
Python function body has no return statement, so its value is `None`. -/
def create_asset (s : DBState) (asset_type name : String)
    (crop_type : Option String) (area_m2 : Option ℚ)
    (location : Option String) (notes : Option String)
    (created_at : String) : DBState × Option Int :=
  let row : AssetRow :=
    ⟨s.next_asset_id, asset_type, name, crop_type, area_m2, location, notes, created_at⟩
  ({ s with
      assets := s.assets ++ [row]
      next_asset_id := s.next_asset_id + 1 },
    none)

/-- Embedding of `add_sensor_reading` (src/database.py:292-299): INSERT INTO
sensor_readings.  The column `asset_id` is NOT NULL, so SQLite raises an
IntegrityError when the supplied asset id is `None`. -/
def add_sensor_reading (s : DBState) (asset_id : Option Int) (dt : String)
    (light air_temp air_humidity soil_temp soil_moisture soil_ph fertility battery : Option ℚ) :
    Except PyError DBState :=
  match asset_id with
  | none => Except.error (PyError.integrityError "NOT NULL constraint failed: sensor_readings.asset_id")
  | some aid =>
    let row : SensorReading :=
      ⟨s.next_reading_id, aid, dt, light, air_temp, air_humidity, soil_temp,
        soil_moisture, soil_ph, fertility, battery⟩
    Except.ok { s with
      sensor_readings := s.sensor_readings ++ [row]
      next_reading_id := s.next_reading_id + 1 }

/-- Embedding of `get_sensor_readings` (src/database.py:301-306): with `since = None`
the whole table, otherwise `SELECT * FROM sensor_readings WHERE date >= ?`. -/
def get_sensor_readings (s : DBState) (since : Option String) : List SensorReading :=
  match since with
  | none => s.sensor_readings
  | some t => s.sensor_readings.filter (fun r => decide (t ≤ r.date))

/-- The per-asset `MAX(date)` subquery of `get_latest_sensor_by_plot`
(src/database.py:308-320). -/
def maxDateFor (rows : List SensorReading) (aid : Int) : Option String :=
  ((rows.filter (fun r => decide (r.asset_id = aid))).map (fun r => r.date)).max?

/-- Embedding of `get_latest_sensor_by_plot` (src/database.py:308-320): the self-join
keeps exactly the rows whose `date` equals the maximal date of their asset. -/
def get_latest_sensor_by_plot (rows : List SensorReading) : List SensorReading :=
  rows.filter (fun r => decide (maxDateFor rows r.asset_id = some r.date))

/-- Insertion step of a descending insertion sort keyed by `key`,
modelling SQL `ORDER BY key DESC`. -/
def insertDescKey {α β : Type} [LinearOrder β] (key : α → β) (x : α) :
    List α → List α
  | [] => [x]
  | y :: ys => if key y ≤ key x then x :: y :: ys else y :: insertDescKey key x ys

/-- Descending insertion sort keyed by `key` (SQL `ORDER BY key DESC`). -/
def sortDescKey {α β : Type} [LinearOrder β] (key : α → β) (l : List α) : List α :=
  l.foldr (insertDescKey key) []

/-- Embedding of `get_asset_id_by_name` (src/database.py:283-287):
`SELECT asset_id FROM assets WHERE asset_type=? AND name=?
 ORDER BY asset_id DESC LIMIT 1`, returning `None` when no row matches. -/
def get_asset_id_by_name (assets : List AssetRow) (asset_type nm : String) : Option Int :=
  (sortDescKey (fun i => i)
    ((assets.filter (fun a => decide (a.asset_type = asset_type ∧ a.name = nm))).map
      (fun a => a.asset_id))).head?

end CAYF

namespace CAYF

lemma mem_insertDescKey {α β : Type} [LinearOrder β] (key : α → β) (x y : α)
    (l : List α) : y ∈ insertDescKey key x l ↔ y = x ∨ y ∈ l := by
  induction l with
  | nil => simp [insertDescKey]
  | cons z zs ih =>
    by_cases h : key z ≤ key x
    · simp [insertDescKey, h]
    · simp only [insertDescKey, if_neg h, List.mem_cons, ih]
      tauto

lemma mem_sortDescKey {α β : Type} [LinearOrder β] (key : α → β) (y : α)
    (l : List α) : y ∈ sortDescKey key l ↔ y ∈ l := by
  induction l with
  | nil => simp [sortDescKey]
  | cons z zs ih =>
    simp only [sortDescKey, List.foldr_cons, mem_insertDescKey, List.mem_cons]
    rw [show zs.foldr (insertDescKey key) [] = sortDescKey key zs from rfl, ih]

lemma insertDescKey_ne_nil {α β : Type} [LinearOrder β] (key : α → β) (x : α)
    (l : List α) : insertDescKey key x l ≠ [] := by
  cases l with
  | nil => simp [insertDescKey]
  | cons z zs =>
    by_cases h : key z ≤ key x <;> simp [insertDescKey, h]

lemma sortDescKey_eq_nil_iff {α β : Type} [LinearOrder β] (key : α → β)
    (l : List α) : sortDescKey key l = [] ↔ l = [] := by
  cases l with
  | nil => simp [sortDescKey]
  | cons z zs =>
    simp only [sortDescKey, List.foldr_cons]
    constructor
    · intro h
      exact absurd h (insertDescKey_ne_nil key z _)
    · intro h
      exact absurd h (by simp)

lemma head?_insertDescKey {α β : Type} [LinearOrder β] (key : α → β) (x : α)
    (l : List α) :
    (insertDescKey key x l).head? =
      some (match l.head? with
            | none => x
            | some y => if key y ≤ key x then x else y) := by
  cases l with
  | nil => simp [insertDescKey]
  | cons z zs =>
    by_cases h : key z ≤ key x <;> simp [insertDescKey, h]

lemma head?_sortDescKey_max {α β : Type} [LinearOrder β] (key : α → β) :
    ∀ (l : List α) (h : α), (sortDescKey key l).head? = some h →
      h ∈ l ∧ ∀ y ∈ l, key y ≤ key h := by
  intro l
  induction l with
  | nil => intro h hh; simp [sortDescKey] at hh
  | cons z zs ih =>
    intro h hh
    rw [show sortDescKey key (z :: zs) = insertDescKey key z (sortDescKey key zs) from rfl,
      head?_insertDescKey] at hh
    rcases htl : (sortDescKey key zs).head? with _ | m
    · have hnil : zs = [] := by
        have := (List.head?_eq_none_iff).mp htl
        exact (sortDescKey_eq_nil_iff key zs).mp this
      rw [htl] at hh
      simp only [Option.some.injEq] at hh
      subst hh
      constructor
      · exact List.mem_cons_self _ _
      · intro y hy
        rw [hnil] at hy
        rcases List.mem_singleton.mp hy with rfl
        exact le_refl _
    · rw [htl] at hh
      simp only [Option.some.injEq] at hh
      have ⟨hm_mem, hm_ub⟩ := ih m htl
      by_cases hc : key m ≤ key z
      · rw [if_pos hc] at hh
        subst hh
        refine ⟨List.mem_cons_self _ _, ?_⟩
        intro y hy
        rcases List.mem_cons.mp hy with rfl | hy
        · exact le_refl _
        · exact le_trans (hm_ub y hy) hc
      · rw [if_neg hc] at hh
        subst hh
        refine ⟨List.mem_cons_of_mem _ hm_mem, ?_⟩
        intro y hy
        rcases List.mem_cons.mp hy with rfl | hy
        · exact le_of_not_le hc
        · exact hm_ub y hy

end CAYF

namespace CAYF

/-- Claim C3: `get_sensor_readings` with `since = window_start` returns
exactly the stored readings whose date is lexicographically (hence
chronologically, for ISO strings) greater than or equal to the window
start: a reading dated exactly at the window start is included, any
strictly earlier reading is excluded, and `since = None` returns the
whole table. -/
theorem get_sensor_readings_spec (s : DBState) (t : String) :
    (∀ r, r ∈ get_sensor_readings s (some t) ↔
        r ∈ s.sensor_readings ∧ t ≤ r.date) ∧
    (∀ r, r ∈ s.sensor_readings → r.date = t → r ∈ get_sensor_readings s (some t)) ∧
    (∀ r, r.date < t → r ∉ get_sensor_readings s (some t)) ∧
    get_sensor_readings s none = s.sensor_readings := by
  refine ⟨?_, ?_, ?_, rfl⟩
  · intro r
    simp [get_sensor_readings, List.mem_filter]
  · intro r hr hd
    simp only [get_sensor_readings, List.mem_filter, decide_eq_true_eq]
    exact ⟨hr, le_of_eq hd.symm⟩
  · intro r hlt hmem
    simp only [get_sensor_readings, List.mem_filter, decide_eq_true_eq] at hmem
    exact absurd hmem.2 (not_le_of_lt hlt)

/-- Closed instance of `get_sensor_readings_spec` at a concrete database
state and window start. -/
theorem get_sensor_readings_spec_witness :
    (∀ r, r ∈ get_sensor_readings ⟨[], [⟨1, 1, "2025-01-02", none, none, none, none, none, none, none, none⟩], 2, 2⟩ (some "2025-01-02") ↔
        r ∈ (⟨[], [⟨1, 1, "2025-01-02", none, none, none, none, none, none, none, none⟩], 2, 2⟩ : DBState).sensor_readings ∧ "2025-01-02" ≤ r.date) ∧
    (∀ r, r ∈ (⟨[], [⟨1, 1, "2025-01-02", none, none, none, none, none, none, none, none⟩], 2, 2⟩ : DBState).sensor_readings → r.date = "2025-01-02" →
        r ∈ get_sensor_readings ⟨[], [⟨1, 1, "2025-01-02", none, none, none, none, none, none, none, none⟩], 2, 2⟩ (some "2025-01-02")) ∧
    (∀ r, r.date < "2025-01-02" →
        r ∉ get_sensor_readings ⟨[], [⟨1, 1, "2025-01-02", none, none, none, none, none, none, none, none⟩], 2, 2⟩ (some "2025-01-02")) ∧
    get_sensor_readings ⟨[], [⟨1, 1, "2025-01-02", none, none, none, none, none, none, none, none⟩], 2, 2⟩ none =
      (⟨[], [⟨1, 1, "2025-01-02", none, none, none, none, none, none, none, none⟩], 2, 2⟩ : DBState).sensor_readings :=
  get_sensor_readings_spec _ _

lemma max?_eq_some_iff_lin {α : Type} [LinearOrder α] {xs : List α} {a : α} :
    xs.max? = some a ↔ a ∈ xs ∧ ∀ b ∈ xs, b ≤ a := by
  haveI : Std.Antisymm (fun x y : α => x ≤ y) :=
    ⟨fun h h2 => le_antisymm h h2⟩
  exact List.max?_eq_some_iff (fun _ => le_refl _) max_choice (fun _ _ _ => max_le_iff)

lemma maxDateFor_eq_some_iff (rows : List SensorReading) (aid : Int) (d : String) :
    maxDateFor rows aid = some d ↔
      (∃ r ∈ rows, r.asset_id = aid ∧ r.date = d) ∧
      (∀ r ∈ rows, r.asset_id = aid → r.date ≤ d) := by
  rw [maxDateFor, max?_eq_some_iff_lin]
  constructor
  · rintro ⟨hmem, hub⟩
    rw [List.mem_map] at hmem
    obtain ⟨r, hr, hrd⟩ := hmem
    rw [List.mem_filter, decide_eq_true_eq] at hr
    refine ⟨⟨r, hr.1, hr.2, hrd⟩, ?_⟩
    intro q hq hqa
    exact hub _ (List.mem_map_of_mem _ (List.mem_filter.mpr ⟨hq, decide_eq_true hqa⟩))
  · rintro ⟨⟨r, hr, hra, hrd⟩, hub⟩
    constructor
    · exact hrd ▸ List.mem_map_of_mem _ (List.mem_filter.mpr ⟨hr, decide_eq_true hra⟩)
    · intro b hb
      rw [List.mem_map] at hb
      obtain ⟨q, hq, hqd⟩ := hb
      rw [List.mem_filter, decide_eq_true_eq] at hq
      exact hqd ▸ hub q hq.1 hq.2

/-- Claim C1 (amended): `get_latest_sensor_by_plot` returns, per asset
with at least one reading, exactly the readings whose timestamp is
maximal for that asset, regardless of input ordering; when no two
readings of the same asset share a timestamp this is exactly one reading
per asset (the one with the maximum timestamp), but readings tied at the
maximum are all returned — the query has no `reading_id` tie-break. -/
theorem get_latest_sensor_by_plot_spec (rows : List SensorReading)
    (hdist : ∀ r1 ∈ rows, ∀ r2 ∈ rows,
      r1.asset_id = r2.asset_id → r1.date = r2.date → r1 = r2) :
    (∀ r, r ∈ get_latest_sensor_by_plot rows ↔
        r ∈ rows ∧ ∀ q ∈ rows, q.asset_id = r.asset_id → q.date ≤ r.date) ∧
    (∀ a, (∃ r ∈ rows, r.asset_id = a) →
        ∃ r ∈ get_latest_sensor_by_plot rows, r.asset_id = a) ∧
    (∀ r1 ∈ get_latest_sensor_by_plot rows, ∀ r2 ∈ get_latest_sensor_by_plot rows,
        r1.asset_id = r2.asset_id → r1 = r2) := by
  have hmemc : ∀ r, r ∈ get_latest_sensor_by_plot rows ↔
      r ∈ rows ∧ ∀ q ∈ rows, q.asset_id = r.asset_id → q.date ≤ r.date := by
    intro r
    rw [get_latest_sensor_by_plot, List.mem_filter, decide_eq_true_eq,
      maxDateFor_eq_some_iff]
    constructor
    · rintro ⟨hr, -, hub⟩
      exact ⟨hr, hub⟩
    · rintro ⟨hr, hub⟩
      exact ⟨hr, ⟨r, hr, rfl, rfl⟩, hub⟩
  refine ⟨hmemc, ?_, ?_⟩
  · rintro a ⟨r0, hr0, hr0a⟩
    rcases hmd : maxDateFor rows a with _ | m
    · exfalso
      rw [maxDateFor, List.max?_eq_none_iff, List.map_eq_nil_iff,
        List.filter_eq_nil_iff] at hmd
      exact hmd r0 hr0 (decide_eq_true hr0a)
    · rw [maxDateFor_eq_some_iff] at hmd
      obtain ⟨⟨rm, hrm, hrma, hrmd⟩, hub⟩ := hmd
      refine ⟨rm, (hmemc rm).mpr ⟨hrm, ?_⟩, hrma⟩
      intro q hq hqa
      rw [hrmd]
      exact hub q hq (hqa.trans hrma)
  · intro r1 h1 r2 h2 ha
    rw [hmemc] at h1 h2
    have hd12 : r2.date ≤ r1.date := h1.2 r2 h2.1 ha.symm
    have hd21 : r1.date ≤ r2.date := h2.2 r1 h1.1 ha
    exact hdist r1 h1.1 r2 h2.1 ha (le_antisymm hd21 hd12)

/-- Closed instance of `get_latest_sensor_by_plot_spec`: two readings of
the same asset with distinct dates, plus one of another asset. -/
theorem get_latest_sensor_by_plot_spec_witness :
    (∀ r1 ∈ ([⟨1, 1, "2025-01-01", none, none, none, none, none, none, none, none⟩,
              ⟨2, 1, "2025-01-02", none, none, none, none, none, none, none, none⟩] : List SensorReading),
      ∀ r2 ∈ ([⟨1, 1, "2025-01-01", none, none, none, none, none, none, none, none⟩,
              ⟨2, 1, "2025-01-02", none, none, none, none, none, none, none, none⟩] : List SensorReading),
        r1.asset_id = r2.asset_id → r1.date = r2.date → r1 = r2) ∧
    ((∀ r, r ∈ get_latest_sensor_by_plot
          [⟨1, 1, "2025-01-01", none, none, none, none, none, none, none, none⟩,
           ⟨2, 1, "2025-01-02", none, none, none, none, none, none, none, none⟩] ↔
        r ∈ ([⟨1, 1, "2025-01-01", none, none, none, none, none, none, none, none⟩,
              ⟨2, 1, "2025-01-02", none, none, none, none, none, none, none, none⟩] : List SensorReading) ∧
        ∀ q ∈ ([⟨1, 1, "2025-01-01", none, none, none, none, none, none, none, none⟩,
              ⟨2, 1, "2025-01-02", none, none, none, none, none, none, none, none⟩] : List SensorReading),
          q.asset_id = r.asset_id → q.date ≤ r.date) ∧
    (∀ a, (∃ r ∈ ([⟨1, 1, "2025-01-01", none, none, none, none, none, none, none, none⟩,
              ⟨2, 1, "2025-01-02", none, none, none, none, none, none, none, none⟩] : List SensorReading), r.asset_id = a) →
        ∃ r ∈ get_latest_sensor_by_plot
          [⟨1, 1, "2025-01-01", none, none, none, none, none, none, none, none⟩,
           ⟨2, 1, "2025-01-02", none, none, none, none, none, none, none, none⟩], r.asset_id = a) ∧
    (∀ r1 ∈ get_latest_sensor_by_plot
          [⟨1, 1, "2025-01-01", none, none, none, none, none, none, none, none⟩,
           ⟨2, 1, "2025-01-02", none, none, none, none, none, none, none, none⟩],
      ∀ r2 ∈ get_latest_sensor_by_plot
          [⟨1, 1, "2025-01-01", none, none, none, none, none, none, none, none⟩,
           ⟨2, 1, "2025-01-02", none, none, none, none, none, none, none, none⟩],
        r1.asset_id = r2.asset_id → r1 = r2)) := by
  constructor
  · intro r1 h1 r2 h2 ha hd
    fin_cases h1 <;> fin_cases h2 <;> first | rfl | (exfalso; simp_all)
  · exact get_latest_sensor_by_plot_spec _
      (by intro r1 h1 r2 h2 ha hd
          fin_cases h1 <;> fin_cases h2 <;> first | rfl | (exfalso; simp_all))

/-- Claim C1 counterexample: two readings of asset 1 tie at the maximal
timestamp; `get_latest_sensor_by_plot` returns both rows, not only the
later-inserted one (`reading_id` 2), so the result is not unique. -/
theorem get_latest_sensor_by_plot_tie_counterexample :
    get_latest_sensor_by_plot
        [⟨1, 1, "2025-01-01", none, none, none, none, none, none, none, none⟩,
         ⟨2, 1, "2025-01-01", none, none, none, none, none, none, none, none⟩] =
      [⟨1, 1, "2025-01-01", none, none, none, none, none, none, none, none⟩,
       ⟨2, 1, "2025-01-01", none, none, none, none, none, none, none, none⟩] ∧
    (⟨1, 1, "2025-01-01", none, none, none, none, none, none, none, none⟩ : SensorReading) ≠
      ⟨2, 1, "2025-01-01", none, none, none, none, none, none, none, none⟩ := by
  constructor
  · simp [get_latest_sensor_by_plot, maxDateFor, List.filter, List.max?_cons', max_self]
  · intro h
    exact absurd (congrArg SensorReading.reading_id h) (by decide)

/-- Claim C10: `get_asset_id_by_name` returns `none` (not an error)
exactly when no asset of the given type and name exists, and whenever it
returns an identifier, that identifier belongs to a matching asset and is
the highest `asset_id` among all matching assets (the most recently
created one, since `asset_id` is AUTOINCREMENT). -/
theorem get_asset_id_by_name_spec (assets : List AssetRow) (ty nm : String) :
    (get_asset_id_by_name assets ty nm = none ↔
        ∀ a ∈ assets, ¬(a.asset_type = ty ∧ a.name = nm)) ∧
    (∀ i, get_asset_id_by_name assets ty nm = some i →
        (∃ a ∈ assets, (a.asset_type = ty ∧ a.name = nm) ∧ a.asset_id = i) ∧
        ∀ a ∈ assets, (a.asset_type = ty ∧ a.name = nm) → a.asset_id ≤ i) := by
  constructor
  · rw [get_asset_id_by_name, List.head?_eq_none_iff, sortDescKey_eq_nil_iff,
      List.map_eq_nil_iff, List.filter_eq_nil_iff]
    simp
  · intro i hi
    rw [get_asset_id_by_name] at hi
    have ⟨hmem, hub⟩ := head?_sortDescKey_max (fun i => i) _ i hi
    rw [List.mem_map] at hmem
    obtain ⟨a, ha, haid⟩ := hmem
    rw [List.mem_filter, decide_eq_true_eq] at ha
    refine ⟨⟨a, ha.1, ha.2, haid⟩, ?_⟩
    intro b hb hbty
    have : b.asset_id ∈ ((assets.filter
        (fun a => decide (a.asset_type = ty ∧ a.name = nm))).map (fun a => a.asset_id)) :=
      List.mem_map_of_mem _ (List.mem_filter.mpr ⟨hb, decide_eq_true hbty⟩)
    exact hub _ this

/-- Closed instance of `get_asset_id_by_name_spec` on a table where two
assets share the same type and name. -/
theorem get_asset_id_by_name_spec_witness :
    ((get_asset_id_by_name
        [⟨1, "hive", "A", none, none, none, none, ""⟩,
         ⟨2, "hive", "A", none, none, none, none, ""⟩] "hive" "A" = none) ↔
      ∀ a ∈ ([⟨1, "hive", "A", none, none, none, none, ""⟩,
         ⟨2, "hive", "A", none, none, none, none, ""⟩] : List AssetRow),
        ¬(a.asset_type = "hive" ∧ a.name = "A")) ∧
    (∀ i, get_asset_id_by_name
        [⟨1, "hive", "A", none, none, none, none, ""⟩,
         ⟨2, "hive", "A", none, none, none, none, ""⟩] "hive" "A" = some i →
      (∃ a ∈ ([⟨1, "hive", "A", none, none, none, none, ""⟩,
         ⟨2, "hive", "A", none, none, none, none, ""⟩] : List AssetRow),
          (a.asset_type = "hive" ∧ a.name = "A") ∧ a.asset_id = i) ∧
      ∀ a ∈ ([⟨1, "hive", "A", none, none, none, none, ""⟩,
         ⟨2, "hive", "A", none, none, none, none, ""⟩] : List AssetRow),
        (a.asset_type = "hive" ∧ a.name = "A") → a.asset_id ≤ i) :=
  get_asset_id_by_name_spec _ _ _

end CAYF

namespace CAYF

/-- A row of the `targets` table (src/database.py, `init_db`): a singleton
row with `id = 1`; `households_target` has DEFAULT 500. -/
structure TargetsRow where
  id : Int
  banane_ca : Option Int
  taro_ca : Option Int
  rabbits_cycle : Option Int
  hives_count : Option Int
  vivoplants_cycle : Option Int
  loss_rate : Option ℚ
  households_target : Option Int
  updated_at : Option String
deriving DecidableEq, Repr

/-- The `values` dict passed to `upsert_targets`.  Python reads each key
with `values.get(k)`, which yields `None` both for an absent key and for a
stored `None`; both are modelled as `none`. -/
structure TargetsValues where
  banane_ca : Option Int
  taro_ca : Option Int
  rabbits_cycle : Option Int
  hives_count : Option Int
  vivoplants_cycle : Option Int
  loss_rate : Option ℚ
deriving DecidableEq, Repr

/-- Embedding of `upsert_targets` (src/database.py:391-406): an UPDATE of the six
target columns and `updated_at` on the row WHERE id=1; every other column
is left untouched by the SET list. -/
def upsert_targets (row : TargetsRow) (values : TargetsValues) (now : String) : TargetsRow :=
  if row.id = 1 then
    { row with
        banane_ca := values.banane_ca
        taro_ca := values.taro_ca
        rabbits_cycle := values.rabbits_cycle
        hives_count := values.hives_count
        vivoplants_cycle := values.vivoplants_cycle
        loss_rate := values.loss_rate
        updated_at := some now }
  else row

/-- Claim C9: `upsert_targets` never changes `households_target` or the
row id, and on the singleton row (id = 1) it overwrites each of the six
target columns with exactly `values.get(column)` — so a field absent from
the supplied mapping is overwritten with null, not preserved — and stamps
`updated_at`. -/
theorem upsert_targets_frame (row : TargetsRow) (values : TargetsValues) (now : String) :
    (upsert_targets row values now).households_target = row.households_target ∧
    (upsert_targets row values now).id = row.id ∧
    (row.id = 1 →
      (upsert_targets row values now).banane_ca = values.banane_ca ∧
      (upsert_targets row values now).taro_ca = values.taro_ca ∧
      (upsert_targets row values now).rabbits_cycle = values.rabbits_cycle ∧
      (upsert_targets row values now).hives_count = values.hives_count ∧
      (upsert_targets row values now).vivoplants_cycle = values.vivoplants_cycle ∧
      (upsert_targets row values now).loss_rate = values.loss_rate ∧
      (upsert_targets row values now).updated_at = some now) := by
  by_cases h : row.id = 1 <;>
    simp [upsert_targets, h]

/-- Closed instance of `upsert_targets_frame` on the freshly initialised
row (id 1, `households_target` defaulted to 500) and an empty mapping. -/
theorem upsert_targets_frame_witness :
    (upsert_targets ⟨1, some 2, some 3, some 4, some 5, some 6, some 7, some 500, none⟩
        ⟨none, none, none, none, none, none⟩ "2025-06-01").households_target = some 500 ∧
    (upsert_targets ⟨1, some 2, some 3, some 4, some 5, some 6, some 7, some 500, none⟩
        ⟨none, none, none, none, none, none⟩ "2025-06-01").id = 1 ∧
    ((1 : Int) = 1 →
      (upsert_targets ⟨1, some 2, some 3, some 4, some 5, some 6, some 7, some 500, none⟩
          ⟨none, none, none, none, none, none⟩ "2025-06-01").banane_ca = none ∧
      (upsert_targets ⟨1, some 2, some 3, some 4, some 5, some 6, some 7, some 500, none⟩
          ⟨none, none, none, none, none, none⟩ "2025-06-01").taro_ca = none ∧
      (upsert_targets ⟨1, some 2, some 3, some 4, some 5, some 6, some 7, some 500, none⟩
          ⟨none, none, none, none, none, none⟩ "2025-06-01").rabbits_cycle = none ∧
      (upsert_targets ⟨1, some 2, some 3, some 4, some 5, some 6, some 7, some 500, none⟩
          ⟨none, none, none, none, none, none⟩ "2025-06-01").hives_count = none ∧
      (upsert_targets ⟨1, some 2, some 3, some 4, some 5, some 6, some 7, some 500, none⟩
          ⟨none, none, none, none, none, none⟩ "2025-06-01").vivoplants_cycle = none ∧
      (upsert_targets ⟨1, some 2, some 3, some 4, some 5, some 6, some 7, some 500, none⟩
          ⟨none, none, none, none, none, none⟩ "2025-06-01").loss_rate = none ∧
      (upsert_targets ⟨1, some 2, some 3, some 4, some 5, some 6, some 7, some 500, none⟩
          ⟨none, none, none, none, none, none⟩ "2025-06-01").updated_at = some "2025-06-01") :=
  upsert_targets_frame _ _ _

/-- A row of the `roadmap_milestones` table (src/database.py, `init_db`). -/
structure MilestoneRow where
  milestone_id : Int
  phase_id : Option Int
  title : String
  target_date : Option String
  actual_date : Option String
  status : String
  notes : Option String
deriving DecidableEq, Repr

/-- Python `round(x)` (bankers rounding, round-half-to-even), on exact
rationals. -/
def roundHalfEven (q : ℚ) : ℤ :=
  let f := Int.floor q
  let frac := q - (f : ℚ)
  if frac < 1/2 then f
  else if 1/2 < frac then f + 1
  else if f % 2 = 0 then f else f + 1

/-- Python `round(x, 1)`: round to one decimal digit. -/
def round1 (q : ℚ) : ℚ := (roundHalfEven (10 * q) : ℚ) / 10

/-- Embedding of `compute_roadmap_progress` (src/app.py:572-577): 0 when there are no
milestones, otherwise `round(100 * completed / len(milestones), 1)`. -/
def compute_roadmap_progress (milestones : List MilestoneRow) : ℚ :=
  if milestones.length = 0 then 0
  else
    round1 (100 * ((milestones.filter (fun m => decide (m.status = "completed"))).length : ℚ) /
      (milestones.length : ℚ))

/-- The impact-indicator progress bar (src/app.py:994):
`pct = min(100, current_value / target_2027 * 100) if target_2027 > 0 else 0`. -/
def impact_progress_pct (current_value target_2027 : ℚ) : ℚ :=
  if 0 < target_2027 then min 100 (current_value / target_2027 * 100) else 0

lemma roundHalfEven_nonneg (q : ℚ) (h : 0 ≤ q) : 0 ≤ roundHalfEven q := by
  have hf : (0 : ℤ) ≤ Int.floor q := Int.floor_nonneg.mpr h
  unfold roundHalfEven
  dsimp only
  split
  · exact hf
  · split
    · linarith
    · split
      · exact hf
      · linarith

/-- Claim C5: the cited rate computations are guarded against zero
denominators and nonnegative: roadmap progress is always ≥ 0 and returns
0 when there are no milestones (the only case with a zero denominator),
and the impact-indicator percentage is ≥ 0 for a nonnegative current
value and is reported as 0 whenever the target is not positive. -/
theorem rates_guarded (ms : List MilestoneRow) (cur tgt : ℚ) (hcur : 0 ≤ cur) :
    0 ≤ compute_roadmap_progress ms ∧
    (ms = [] → compute_roadmap_progress ms = 0) ∧
    0 ≤ impact_progress_pct cur tgt ∧
    (¬ 0 < tgt → impact_progress_pct cur tgt = 0) := by
  refine ⟨?_, ?_, ?_, ?_⟩
  · rw [compute_roadmap_progress]
    split
    · norm_num
    · next h =>
      rw [round1]
      apply div_nonneg _ (by norm_num)
      have hlen : (0 : ℚ) < (ms.length : ℚ) := by
        exact_mod_cast Nat.pos_of_ne_zero h
      have hq : 0 ≤ 10 * (100 * ((ms.filter (fun m => decide (m.status = "completed"))).length : ℚ) /
          (ms.length : ℚ)) := by positivity
      exact_mod_cast roundHalfEven_nonneg _ hq
  · intro h
    subst h
    simp [compute_roadmap_progress]
  · rw [impact_progress_pct]
    split
    · next h =>
      have hx : 0 ≤ cur / tgt * 100 := by positivity
      exact le_min (by norm_num) hx
    · exact le_refl 0
  · intro h
    rw [impact_progress_pct, if_neg h]

/-- Closed instance of `rates_guarded`: no milestones, a positive current
value and a zero target. -/
theorem rates_guarded_witness :
    (0 : ℚ) ≤ 5 ∧
    (0 ≤ compute_roadmap_progress [] ∧
     (([] : List MilestoneRow) = [] → compute_roadmap_progress [] = 0) ∧
     0 ≤ impact_progress_pct 5 0 ∧
     (¬ (0 : ℚ) < 0 → impact_progress_pct 5 0 = 0)) :=
  ⟨by norm_num, rates_guarded [] 5 0 (by norm_num)⟩

end CAYF

namespace CAYF

/-- One entry of the strategic-diagnostic cards (src/app.py:1357-1381),
abstracting the formatted French message text. -/
inductive Entry where
  | phOptimal (avg : ℚ)
  | phWatch (avg : ℚ)
  | moistSaturation
  | moistStable
  | hiveOpportunity
  | hiveProductive (n : ℕ)
deriving DecidableEq, Repr

/-- The three card lists of the strategic diagnostic. -/
structure Diag where
  forces : List Entry
  weaknesses : List Entry
  opportunities : List Entry
deriving DecidableEq, Repr

/-- Embedding of the soil-pH mean (src/app.py:1363): the mean of the
soil_ph column of df_sensors when the table is nonempty, else 0.
Pandas `mean` skips nulls and yields NaN when every
value is null; NaN (whose comparisons are all false) is modelled as
`none`, an empty table as `some 0`. -/
def avg_ph (df : List SensorReading) : Option ℚ :=
  if df.isEmpty then some 0
  else
    let vs := df.filterMap (fun r => r.soil_ph)
    if vs.isEmpty then none else some (vs.sum / (vs.length : ℚ))

/-- Embedding of the soil-moisture mean (src/app.py:1370): the mean of
the soil_moisture column of df_sensors when the table is nonempty, else
0, with the same NaN convention as `avg_ph`. -/
def avg_moist (df : List SensorReading) : Option ℚ :=
  if df.isEmpty then some 0
  else
    let vs := df.filterMap (fun r => r.soil_moisture)
    if vs.isEmpty then none else some (vs.sum / (vs.length : ℚ))

/-- The soil-pH stanza (src/app.py:1362-1367):
`if 6.0 <= avg_ph <= 7.0: forces.append(...) elif avg_ph > 0:
weaknesses.append(...)`.  Returns (appended forces, appended weaknesses);
a NaN mean (`none`) fails both comparisons. -/
def ph_entries : Option ℚ → List Entry × List Entry
  | none => ([], [])
  | some v =>
    if 6 ≤ v ∧ v ≤ 7 then ([Entry.phOptimal v], [])
    else if 0 < v then ([], [Entry.phWatch v])
    else ([], [])

/-- The soil-moisture stanza (src/app.py:1369-1374):
`if avg_moist > 80: weaknesses.append(...) elif 40 <= avg_moist <= 80:
forces.append(...)` — there is no branch for a mean below 40. -/
def moisture_entries : Option ℚ → List Entry × List Entry
  | none => ([], [])
  | some v =>
    if 80 < v then ([], [Entry.moistSaturation])
    else if 40 ≤ v ∧ v ≤ 80 then ([Entry.moistStable], [])
    else ([], [])

/-- The hive-count stanza (src/app.py:1376-1381): returns (appended
forces, appended opportunities). -/
def hive_entries (hive_count : ℕ) : List Entry × List Entry :=
  if hive_count < 5 then ([], [Entry.hiveOpportunity])
  else ([Entry.hiveProductive hive_count], [])

/-- The strategic diagnostic of the Reporting tab (src/app.py:1357-1381):
builds the forces / vigilance (weaknesses) / opportunities lists from the
full `sensor_readings` table and the `assets` table, in program order. -/
def diagnostic (df_sensors : List SensorReading) (assets : List AssetRow) : Diag :=
  let phFW := ph_entries (avg_ph df_sensors)
  let moistFW := moisture_entries (avg_moist df_sensors)
  let hiveFO := hive_entries
    ((assets.filter (fun a => decide (a.asset_type = "hive"))).length)
  { forces := phFW.1 ++ moistFW.1 ++ hiveFO.1
    weaknesses := phFW.2 ++ moistFW.2
    opportunities := hiveFO.2 }

lemma ph_entries_watch (p : ℚ) (h0 : 0 < p) (h6 : p < 6) :
    ph_entries (some p) = ([], [Entry.phWatch p]) := by
  rw [ph_entries, if_neg (by rintro ⟨h, -⟩; linarith), if_pos h0]

lemma moisture_entries_below_low (m : ℚ) (h : m < 40) :
    moisture_entries (some m) = ([], []) := by
  rw [moisture_entries, if_neg (by intro h2; linarith),
    if_neg (by rintro ⟨h2, -⟩; linarith)]

/-- Claim C2 (amended): a soil-pH mean strictly below the low bound (and
positive) does produce a vigilance entry — the same range-referencing
entry as for an above-range mean, with no separate BELOW direction — but
a soil-moisture mean strictly below its low bound (40) produces no
finding at all: only saturation above the high bound is flagged. -/
theorem diagnostic_below_low (df : List SensorReading) (assets : List AssetRow) (p m : ℚ)
    (hp : avg_ph df = some p) (hm : avg_moist df = some m)
    (hp0 : 0 < p) (hp6 : p < 6) (hm40 : m < 40) :
    (diagnostic df assets).weaknesses = [Entry.phWatch p] := by
  rw [diagnostic]
  dsimp only
  rw [hp, hm, ph_entries_watch p hp0 hp6, moisture_entries_below_low m hm40]
  rfl

/-- Closed instance of `diagnostic_below_low`: a single reading with
soil pH 5 and soil moisture 20. -/
theorem diagnostic_below_low_witness :
    (avg_ph [⟨1, 1, "2025-01-01", none, none, none, none, some 20, some 5, none, none⟩] = some 5 ∧
     avg_moist [⟨1, 1, "2025-01-01", none, none, none, none, some 20, some 5, none, none⟩] = some 20 ∧
     (0 : ℚ) < 5 ∧ (5 : ℚ) < 6 ∧ (20 : ℚ) < 40) ∧
    (diagnostic [⟨1, 1, "2025-01-01", none, none, none, none, some 20, some 5, none, none⟩]
        []).weaknesses = [Entry.phWatch 5] := by
  have hp : avg_ph [⟨1, 1, "2025-01-01", none, none, none, none, some 20, some 5, none, none⟩] =
      some 5 := by
    simp [avg_ph]
  have hm : avg_moist [⟨1, 1, "2025-01-01", none, none, none, none, some 20, some 5, none, none⟩] =
      some 20 := by
    simp [avg_moist]
  exact ⟨⟨hp, hm, by norm_num, by norm_num, by norm_num⟩,
    diagnostic_below_low _ _ _ _ hp hm (by norm_num) (by norm_num) (by norm_num)⟩

/-- Claim C2 counterexample: one reading with in-range pH 6.5 and soil
moisture 20, strictly below the low bound 40 of its range; the diagnostic
emits no vigilance finding at all, contradicting the claim that a
below-low soil-moisture value yields an ATTENTION/BELOW finding. -/
theorem diagnostic_moisture_below_counterexample :
    avg_moist [⟨1, 1, "2025-01-01", none, none, none, none, some 20, some (13/2), none, none⟩] =
      some 20 ∧
    (diagnostic [⟨1, 1, "2025-01-01", none, none, none, none, some 20, some (13/2), none, none⟩]
        []).weaknesses = [] := by
  have hp : avg_ph [⟨1, 1, "2025-01-01", none, none, none, none, some 20, some (13/2), none, none⟩] =
      some (13/2) := by
    simp [avg_ph]
  have hm : avg_moist [⟨1, 1, "2025-01-01", none, none, none, none, some 20, some (13/2), none, none⟩] =
      some 20 := by
    simp [avg_moist]
  refine ⟨hm, ?_⟩
  rw [diagnostic]
  dsimp only
  rw [hp, hm, moisture_entries_below_low 20 (by norm_num), ph_entries,
    if_pos (by constructor <;> norm_num)]
  rfl

/-- Claim C6: when the pH mean lies in the inclusive range [6, 7] and the
soil-moisture mean lies in the inclusive range [40, 80] — boundary values
included — the diagnostic emits no vigilance (weakness) entry at all:
in-range is silent. -/
theorem diagnostic_in_range_silent (df : List SensorReading) (assets : List AssetRow) (p m : ℚ)
    (hp : avg_ph df = some p) (hm : avg_moist df = some m)
    (h6 : 6 ≤ p) (h7 : p ≤ 7) (h40 : 40 ≤ m) (h80 : m ≤ 80) :
    (diagnostic df assets).weaknesses = [] := by
  rw [diagnostic]
  dsimp only
  rw [hp, hm, ph_entries, if_pos ⟨h6, h7⟩, moisture_entries,
    if_neg (by intro h; linarith), if_pos ⟨h40, h80⟩]
  rfl

/-- Closed instance of `diagnostic_in_range_silent` at the exact bounds:
pH mean 6 (the low bound) and moisture mean 80 (the high bound). -/
theorem diagnostic_in_range_silent_witness :
    (avg_ph [⟨1, 1, "2025-01-01", none, none, none, none, some 80, some 6, none, none⟩] = some 6 ∧
     avg_moist [⟨1, 1, "2025-01-01", none, none, none, none, some 80, some 6, none, none⟩] = some 80 ∧
     (6 : ℚ) ≤ 6 ∧ (6 : ℚ) ≤ 7 ∧ (40 : ℚ) ≤ 80 ∧ (80 : ℚ) ≤ 80) ∧
    (diagnostic [⟨1, 1, "2025-01-01", none, none, none, none, some 80, some 6, none, none⟩]
        []).weaknesses = [] := by
  have hp : avg_ph [⟨1, 1, "2025-01-01", none, none, none, none, some 80, some 6, none, none⟩] =
      some 6 := by
    simp [avg_ph]
  have hm : avg_moist [⟨1, 1, "2025-01-01", none, none, none, none, some 80, some 6, none, none⟩] =
      some 80 := by
    simp [avg_moist]
  exact ⟨⟨hp, hm, by norm_num, by norm_num, by norm_num, by norm_num⟩,
    diagnostic_in_range_silent _ _ _ _ hp hm (by norm_num) (by norm_num) (by norm_num)
      (by norm_num)⟩

/-- Claim C7: the strategic diagnostic is a pure, deterministic function
of the sensor-readings table and the assets table: two evaluations on
equal inputs yield identical forces, weaknesses and opportunities lists,
in identical order. -/
theorem diagnostic_deterministic (df1 df2 : List SensorReading) (a1 a2 : List AssetRow)
    (hdf : df1 = df2) (ha : a1 = a2) :
    (diagnostic df1 a1).forces = (diagnostic df2 a2).forces ∧
    (diagnostic df1 a1).weaknesses = (diagnostic df2 a2).weaknesses ∧
    (diagnostic df1 a1).opportunities = (diagnostic df2 a2).opportunities := by
  subst hdf
  subst ha
  exact ⟨rfl, rfl, rfl⟩

/-- Closed instance of `diagnostic_deterministic` at a concrete table. -/
theorem diagnostic_deterministic_witness :
    (diagnostic [⟨1, 1, "2025-01-01", none, none, none, none, some 50, some 6, none, none⟩]
        [⟨1, "hive", "H1", none, none, none, none, ""⟩]).forces =
      (diagnostic [⟨1, 1, "2025-01-01", none, none, none, none, some 50, some 6, none, none⟩]
        [⟨1, "hive", "H1", none, none, none, none, ""⟩]).forces ∧
    (diagnostic [⟨1, 1, "2025-01-01", none, none, none, none, some 50, some 6, none, none⟩]
        [⟨1, "hive", "H1", none, none, none, none, ""⟩]).weaknesses =
      (diagnostic [⟨1, 1, "2025-01-01", none, none, none, none, some 50, some 6, none, none⟩]
        [⟨1, "hive", "H1", none, none, none, none, ""⟩]).weaknesses ∧
    (diagnostic [⟨1, 1, "2025-01-01", none, none, none, none, some 50, some 6, none, none⟩]
        [⟨1, "hive", "H1", none, none, none, none, ""⟩]).opportunities =
      (diagnostic [⟨1, 1, "2025-01-01", none, none, none, none, some 50, some 6, none, none⟩]
        [⟨1, "hive", "H1", none, none, none, none, ""⟩]).opportunities :=
  diagnostic_deterministic _ _ _ _ rfl rfl

end CAYF

namespace CAYF

/-- The per-iteration body of the seed-data loop (src/app.py:1265-1273):
for each `i` in `range(10)`, one reading for each of the two new plots.
A raised IntegrityError aborts the loop, carrying the state already
committed by the earlier iterations. -/
def seed_readings (pid1 pid2 : Option Int) (base_time : String) :
    DBState → List ℕ → Except (PyError × DBState) DBState
  | s, [] => Except.ok s
  | s, i :: rest =>
    match add_sensor_reading s pid1 base_time (some (45000 + 100 * (i : ℚ)))
        (some (28 + (i : ℚ) / 5)) (some (65 - (i : ℚ))) (some 24)
        (some (80 - 2 * (i : ℚ))) (some (13/2)) (some 1200) (some 90) with
    | Except.error e => Except.error (e, s)
    | Except.ok s1 =>
      match add_sensor_reading s1 pid2 base_time (some (42000 + 50 * (i : ℚ)))
          (some (27 + (i : ℚ) / 10)) (some (70 - (i : ℚ))) (some 23)
          (some (85 - (i : ℚ))) (some (31/5)) (some 1100) (some 88) with
      | Except.error e => Except.error (e, s1)
      | Except.ok s2 => seed_readings pid1 pid2 base_time s2 rest

/-- The demo-seed path of the Configuration tab (src/app.py:1258-1285):
creates two plots, keeps the values returned by `create_asset` as
`pid1`/`pid2`, inserts ten readings for each plot, then creates the
livestock and vivoplant assets.  An exception propagates, skipping the
rest of the handler; each helper commits separately, so states already
committed survive. -/
def seed_demo (s : DBState) (now : String) : DBState × Option PyError :=
  let p1 := create_asset s "plot" "Parcelle Lac 1" (some "Banane") (some 1200) (some "Zone A") none now
  let p2 := create_asset p1.1 "plot" "Parcelle Sud" (some "Taro") (some 800) (some "Zone B") none now
  match seed_readings p1.2 p2.2 now p2.1 (List.range 10) with
  | Except.error e => (e.2, some e.1)
  | Except.ok s3 =>
    let h1 := create_asset s3 "hive" "Ruche Reine 1" none none (some "Verger") (some "Forte activité") now
    let h2 := create_asset h1.1 "hive" "Ruche Reine 2" none none (some "Verger") (some "A surveiller") now
    let r1 := create_asset h2.1 "rabbitry" "Clapier A" none none (some "Hangar Principal") (some "5 Mères, 30 lapereaux") now
    let v1 := create_asset r1.1 "vivoplant" "Lot PIF 001" (some "Banane Plantain") none none (some "Stade sevrage") now
    (v1.1, none)

/-- Claim C8 (amended): `create_asset` always returns `None`, so the
demo-seed path passes `asset_id = None` to `add_sensor_reading`; the
INSERT then violates the NOT NULL constraint on
`sensor_readings.asset_id`, so the seed path stops with an IntegrityError
at the first reading and inserts no sensor readings at all — in
particular none linked (or unlinked) to the plots created just before. -/
theorem create_asset_returns_none_seed_fails (s : DBState) (now : String)
    (ty nm : String) (ct : Option String) (ar : Option ℚ) (loc nts : Option String)
    (ca : String) :
    (create_asset s ty nm ct ar loc nts ca).2 = none ∧
    (seed_demo s now).2 =
      some (PyError.integrityError "NOT NULL constraint failed: sensor_readings.asset_id") ∧
    (seed_demo s now).1.sensor_readings = s.sensor_readings :=
  ⟨rfl, rfl, rfl⟩

/-- Claim C8 counterexample: on an empty database the seed path inserts
no sensor reading whatsoever (with `asset_id = None` or otherwise); it
fails with an IntegrityError instead, refuting the claim that the
readings are created unlinked. -/
theorem seed_demo_counterexample :
    (seed_demo ⟨[], [], 1, 1⟩ "2025-01-01T00:00:00").1.sensor_readings = [] ∧
    (seed_demo ⟨[], [], 1, 1⟩ "2025-01-01T00:00:00").2 =
      some (PyError.integrityError "NOT NULL constraint failed: sensor_readings.asset_id") :=
  ⟨rfl, rfl⟩

end CAYF

namespace CAYF

/-- Every name that is ever bound in src/app.py — by an import, a `def`,
an assignment, a `for` target or a `with ... as` target, at any scope
that could be visible at line 846.  Extracted exhaustively from the
source; `filieres` is not among them: it is referenced at lines 846 and
867 but never bound anywhere. -/
def app_bound_names : List String :=
  ["st", "pd", "px", "go", "pdk", "datetime", "date", "db", "base64", "os",
   "get_base", "banner", "kpi", "tag", "format_number", "apply_chart_style",
   "load_assets", "load_financial_targets", "load_roadmap", "load_impact_indicators",
   "load_social_fund", "load_committee", "load_revenue_streams",
   "compute_filiere_stats", "compute_roadmap_progress",
   "CSS", "SUB_TABS", "TABS", "air_humidity", "air_temp", "alloc_amount",
   "alloc_benef", "alloc_cat", "alloc_notes", "api_ca", "asset_id", "assets",
   "avg_moist", "avg_ph", "banane_ca", "base_time", "battery", "c1", "c2", "c3",
   "c4", "c5", "cat_icons", "chart_data", "chart_data2", "col1", "col2", "col3",
   "col4", "col5", "col6", "col7", "cols", "completed", "conn", "csv", "cuni_ca",
   "cur", "defaults", "df_plots", "df_sensors", "disease", "disease_notes",
   "domain_df", "export_df", "fertility", "fig", "fin_targets", "forces",
   "fund_summary", "hive_count", "hive_loc", "hive_name", "hives", "icon",
   "ind_current", "ind_domain", "ind_name", "ind_target", "ind_unit",
   "indicators", "latest", "latest_obs", "leaf_status", "light", "meet_att",
   "meet_date", "meet_dec", "meet_next", "meetings", "mem_contact", "mem_date",
   "mem_name", "mem_role", "members", "mile_date", "mile_title", "milestones",
   "new_area", "new_crop", "new_location", "new_name", "obs_asset_id",
   "obs_data", "obs_notes", "obs_plot", "opportunities", "pct", "pests",
   "pests_notes", "phase_desc", "phase_end", "phase_id", "phase_name",
   "phase_start", "phase_status", "phases", "phases_default", "pid1", "pid2",
   "plots", "rab_loc", "rab_name", "rabbits", "roadmap_pct", "role_icons",
   "sel_phase", "selected_plot", "selected_tab", "sensor_data", "soil_moisture",
   "soil_ph", "soil_temp", "stage", "stats", "stats_data", "status_class",
   "stream_cat", "stream_name", "stream_pct", "streams", "streams_default",
   "sub_selected", "subset", "tables", "target_year", "taro_ca", "total",
   "vigor", "vivo", "vivo_ca", "vivo_name", "vivo_species", "weaknesses",
   "image_path", "img_file",
   "i", "ind", "row", "domain", "f", "w", "o", "t", "m", "phase", "d", "n",
   "u", "c", "name", "cat", "pct2", "status", "start", "end", "desc", "ftype"]

/-- Python name resolution: referencing a name that is bound in no
visible scope raises NameError. -/
def lookupName (env : List String) (nm : String) : Except PyError Unit :=
  if nm ∈ env then Except.ok () else Except.error (PyError.nameError nm)

/-- A widget produced while rendering a tab: a dataframe with its shown
columns, or an info/empty-state message (cell formatting abstracted to
strings). -/
inductive DisplayItem where
  | table (header : List String) (rows : List (List String))
  | info (msg : String)
deriving DecidableEq, Repr

/-- The Performance Filières tab body (src/app.py:703-908).  The first
sub-tab branch displays the plots and the latest sensor readings; then,
regardless of the selected sub-tab, execution reaches `with filieres[1]:`
at line 846, which must resolve the name `filieres` — bound nowhere in
the module — before anything below it can run. -/
def renderPerfFilieres (assets : List AssetRow) (sensor_data : List SensorReading)
    (sub_selected : Fin 4) : Except PyError (List DisplayItem) :=
  let items0 : List DisplayItem :=
    if sub_selected = (0 : Fin 4) then
      let plots := assets.filter (fun a => decide (a.asset_type = "plot"))
      let plotsPart :=
        if plots.length > 0 then
          [DisplayItem.table ["name", "crop_type", "area_m2", "location", "created_at"]
            (plots.map (fun p =>
              [p.name, p.crop_type.getD "", toString (p.area_m2.getD 0),
               p.location.getD "", p.created_at]))]
        else [DisplayItem.info "Aucune parcelle enregistrée. Utilisez le formulaire ci-dessous."]
      let sensorsPart :=
        if sensor_data.length > 0 then
          [DisplayItem.table
            ["asset_id", "date", "light", "air_temp", "air_humidity", "soil_temp",
             "soil_moisture", "soil_ph", "fertility"]
            (((sortDescKey (fun r => r.date) sensor_data).take 5).map (fun r =>
              [toString r.asset_id, r.date, toString (r.light.getD 0),
               toString (r.air_temp.getD 0), toString (r.air_humidity.getD 0),
               toString (r.soil_temp.getD 0), toString (r.soil_moisture.getD 0),
               toString (r.soil_ph.getD 0), toString (r.fertility.getD 0)]))]
        else []
      plotsPart ++ sensorsPart
    else []
  match lookupName app_bound_names "filieres" with
  | Except.error e => Except.error e
  | Except.ok _ =>
    let hives := assets.filter (fun a => decide (a.asset_type = "hive"))
    let apiPart :=
      if hives.length > 0 then
        [DisplayItem.table ["name", "location", "notes", "created_at"]
          (hives.map (fun h => [h.name, h.location.getD "", h.notes.getD "", h.created_at]))]
      else [DisplayItem.info "Aucune ruche enregistrée."]
    let rabbits := assets.filter (fun a => decide (a.asset_type = "rabbitry"))
    let cuniPart :=
      if rabbits.length > 0 then
        [DisplayItem.table ["name", "location", "notes", "created_at"]
          (rabbits.map (fun r => [r.name, r.location.getD "", r.notes.getD "", r.created_at]))]
      else [DisplayItem.info "Aucun élevage de lapins enregistré."]
    let vivoPart :=
      if sub_selected = (3 : Fin 4) then
        let vivo := assets.filter (fun a => decide (a.asset_type = "vivoplant"))
        if vivo.length > 0 then
          [DisplayItem.table ["name", "crop_type", "notes", "created_at"]
            (vivo.map (fun v => [v.name, v.crop_type.getD "", v.notes.getD "", v.created_at]))]
        else [DisplayItem.info "Aucun lot de vivoplants enregistré."]
      else []
    Except.ok (items0 ++ apiPart ++ cuniPart ++ vivoPart)

/-- Claim C4 (code bug): rendering the Performance Filières tab never
completes: for every database state and every selected sub-tab it raises
NameError, because line 846 references `filieres`, a name bound nowhere
in src/app.py — the apiculture and cuniculture branches are unreachable
dead code, contradicting the exception-free contract. -/
theorem renderPerfFilieres_always_raises (assets : List AssetRow)
    (sensor_data : List SensorReading) (sub_selected : Fin 4) :
    renderPerfFilieres assets sensor_data sub_selected =
      Except.error (PyError.nameError "filieres") := rfl

end CAYF
